import Mathlib

/-!
Shallow embedding of the MLflow webhook delivery subsystem
(`mlflow/webhooks/dispatcher.py`, `mlflow/webhooks/webhook_cache.py`,
`mlflow/entities/model_registry/webhook.py`).

Pure data and control flow are translated directly from the Python source.
Ambient effects are made explicit:
- the HTTP layer is an oracle (`HttpOutcome`) consumed only where
  `requests.post` is called in the source;
- wall-clock times and fresh UUIDs are parameters;
- the store is a function-valued capability (`WebhookStoreModel`);
- side effects (sleeps, enqueues, store calls, cache refreshes, log drops)
  are recorded in an explicit `DispatchEffects` record.
Machine integers do not overflow in the modelled code paths (Python ints are
unbounded), so `Nat`/`Int` are used directly; SHA-256 words are reduced
mod 2^32 explicitly.
-/

/- ------------------------------------------------------------------ -/
/- Webhook entity (entities/model_registry/webhook.py)                 -/
/- ------------------------------------------------------------------ -/

namespace WebhookStatus

def ACTIVE : String := "ACTIVE"

def INACTIVE : String := "INACTIVE"

def DISABLED : String := "DISABLED"

end WebhookStatus

structure Webhook where
  id : String
  name : String
  url : String
  events : List String
  description : Option String := none
  status : String := WebhookStatus.ACTIVE
  secret : Option String := none
  createdAt : Option Int := none
  updatedAt : Option Int := none
deriving DecidableEq, Repr

/-- `Webhook.is_active`: `self._status == WebhookStatus.ACTIVE`. -/
def Webhook.isActive (w : Webhook) : Bool :=
  w.status == WebhookStatus.ACTIVE

/-- `Webhook.should_trigger_for_event`: active and subscribed to the event. -/
def Webhook.shouldTriggerForEvent (w : Webhook) (eventType : String) : Bool :=
  w.isActive && w.events.contains eventType

/- ------------------------------------------------------------------ -/
/- JSON values and `json.dumps` (default options: ensure_ascii=True,   -/
/- separators (", ", ": "))                                            -/
/- ------------------------------------------------------------------ -/

inductive JsonValue where
  | str (s : String)
  | num (n : Int)
  | bool (b : Bool)
  | null
  | arr (elems : List JsonValue)
  | obj (fields : List (String × JsonValue))
deriving Repr

/-- Lower-case hexadecimal digit, as used by `%04x` / `hexdigest`. -/
def hexDigit (n : Nat) : Char :=
  if n < 10 then Char.ofNat (48 + n) else Char.ofNat (87 + n)

/-- Escape one character the way CPython's
`json.encoder.py_encode_basestring_ascii` does (ensure_ascii=True). -/
def escapeJsonChar (c : Char) : List Char :=
  if c = '"' then ['\\', '"']
  else if c = '\\' then ['\\', '\\']
  else if c.toNat = 8 then ['\\', 'b']
  else if c.toNat = 9 then ['\\', 't']
  else if c.toNat = 10 then ['\\', 'n']
  else if c.toNat = 12 then ['\\', 'f']
  else if c.toNat = 13 then ['\\', 'r']
  else if 32 ≤ c.toNat ∧ c.toNat ≤ 126 then [c]
  else if c.toNat < 65536 then
    ['\\', 'u', hexDigit (c.toNat / 4096 % 16), hexDigit (c.toNat / 256 % 16),
     hexDigit (c.toNat / 16 % 16), hexDigit (c.toNat % 16)]
  else
    let v := c.toNat - 65536
    let hi := 55296 + v / 1024
    let lo := 56320 + v % 1024
    ['\\', 'u', hexDigit (hi / 4096 % 16), hexDigit (hi / 256 % 16),
     hexDigit (hi / 16 % 16), hexDigit (hi % 16),
     '\\', 'u', hexDigit (lo / 4096 % 16), hexDigit (lo / 256 % 16),
     hexDigit (lo / 16 % 16), hexDigit (lo % 16)]

/-- Escape a whole character sequence. -/
def escapeChars (l : List Char) : List Char :=
  l.foldr (fun c acc => escapeJsonChar c ++ acc) []

mutual

/-- `json.dumps` of a value, as a character sequence. -/
def jsonDumpsChars : JsonValue → List Char
  | .str s => '"' :: (escapeChars s.data ++ ['"'])
  | .num n => (toString n).data
  | .bool b => if b then "true".data else "false".data
  | .null => "null".data
  | .arr es => '[' :: (jsonArrChars es ++ [']'])
  | .obj fs => Char.ofNat 123 :: (jsonObjChars fs ++ [Char.ofNat 125])

/-- Array elements joined by `", "`. -/
def jsonArrChars : List JsonValue → List Char
  | [] => []
  | [v] => jsonDumpsChars v
  | v :: rest => jsonDumpsChars v ++ ',' :: ' ' :: jsonArrChars rest

/-- Object members `"key": value` joined by `", "`. -/
def jsonObjChars : List (String × JsonValue) → List Char
  | [] => []
  | [(k, v)] => '"' :: (escapeChars k.data ++ '"' :: ':' :: ' ' :: jsonDumpsChars v)
  | (k, v) :: rest =>
    ('"' :: (escapeChars k.data ++ '"' :: ':' :: ' ' :: jsonDumpsChars v))
      ++ ',' :: ' ' :: jsonObjChars rest

end

/-- `json.dumps(payload)` as a `String`. -/
def jsonDumps (v : JsonValue) : String :=
  String.mk (jsonDumpsChars v)

/-- Python dict key lookup on an object payload (`payload["event_type"]`);
`none` models a `KeyError`. -/
def jsonLookup (v : JsonValue) (key : String) : Option JsonValue :=
  match v with
  | .obj fs => (fs.find? (fun kv => kv.1 == key)).map Prod.snd
  | _ => none

/- ------------------------------------------------------------------ -/
/- UTF-8 (`str.encode("utf-8")`)                                       -/
/- ------------------------------------------------------------------ -/

/-- UTF-8 encoding of one scalar value. -/
def utf8EncodeChar (c : Char) : List Nat :=
  let n := c.toNat
  if n < 128 then [n]
  else if n < 2048 then [192 + n / 64, 128 + n % 64]
  else if n < 65536 then [224 + n / 4096, 128 + n / 64 % 64, 128 + n % 64]
  else [240 + n / 262144, 128 + n / 4096 % 64, 128 + n / 64 % 64, 128 + n % 64]

/-- UTF-8 encoding of a character sequence, as bytes. -/
def utf8Bytes (l : List Char) : List Nat :=
  l.foldr (fun c acc => utf8EncodeChar c ++ acc) []

/- ------------------------------------------------------------------ -/
/- SHA-256 and HMAC (Python `hashlib.sha256`, `hmac.new(...).hexdigest`)-/
/- ------------------------------------------------------------------ -/

/-- Reduce to a 32-bit word. -/
def w32 (n : Nat) : Nat := n % 4294967296

/-- Rotate the word `x` right by `n` bit positions (32-bit). -/
def rotr32 (x n : Nat) : Nat :=
  w32 (x / 2 ^ n + x % 2 ^ n * 2 ^ (32 - n))

/-- SHA-256 round constants. -/
def sha256K : List Nat :=
  [1116352408, 1899447441, 3049323471, 3921009573, 961987163,
   1508970993, 2453635748, 2870763221, 3624381080, 310598401,
   607225278, 1426881987, 1925078388, 2162078206, 2614888103,
   3248222580, 3835390401, 4022224774, 264347078, 604807628,
   770255983, 1249150122, 1555081692, 1996064986, 2554220882,
   2821834349, 2952996808, 3210313671, 3336571891, 3584528711,
   113926993, 338241895, 666307205, 773529912, 1294757372,
   1396182291, 1695183700, 1986661051, 2177026350, 2456956037,
   2730485921, 2820302411, 3259730800, 3345764771, 3516065817,
   3600352804, 4094571909, 275423344, 430227734, 506948616,
   659060556, 883997877, 958139571, 1322822218, 1537002063,
   1747873779, 1955562222, 2024104815, 2227730452, 2361852424,
   2428436474, 2756734187, 3204031479, 3329325298]

/-- SHA-256 initial hash state. -/
def sha256H0 : List Nat :=
  [1779033703, 3144134277, 1013904242, 2773480762, 1359893119,
   2600822924, 528734635, 1541459225]

/-- Merkle–Damgård padding: append 0x80, zeros, and the 64-bit big-endian
bit length, to a multiple of 64 bytes. -/
def sha256Pad (msg : List Nat) : List Nat :=
  let len := msg.length
  let zeros := (119 - len % 64) % 64
  let bitLen := len * 8
  msg ++ [128] ++ List.replicate zeros 0 ++
    [bitLen / 2 ^ 56 % 256, bitLen / 2 ^ 48 % 256, bitLen / 2 ^ 40 % 256,
     bitLen / 2 ^ 32 % 256, bitLen / 2 ^ 24 % 256, bitLen / 2 ^ 16 % 256,
     bitLen / 2 ^ 8 % 256, bitLen % 256]

/-- Interpret 4 consecutive bytes (big-endian) starting at `4*i` as a word. -/
def blockWord (block : List Nat) (i : Nat) : Nat :=
  block.getD (4 * i) 0 * 2 ^ 24 + block.getD (4 * i + 1) 0 * 2 ^ 16 +
    block.getD (4 * i + 2) 0 * 2 ^ 8 + block.getD (4 * i + 3) 0

/-- Message schedule: 16 words from the block extended to 64. -/
def sha256Schedule (block : List Nat) : Array Nat :=
  let w0 : Array Nat := ((List.range 16).map (blockWord block)).toArray
  (List.range 48).foldl
    (fun w j =>
      let i := j + 16
      let x15 := w.getD (i - 15) 0
      let x2 := w.getD (i - 2) 0
      let s0 := rotr32 x15 7 ^^^ rotr32 x15 18 ^^^ x15 / 2 ^ 3
      let s1 := rotr32 x2 17 ^^^ rotr32 x2 19 ^^^ x2 / 2 ^ 10
      w.push (w32 (w.getD (i - 16) 0 + s0 + w.getD (i - 7) 0 + s1)))
    w0

/-- One compression round over state `(a,b,c,d,e,f,g,h)`. -/
def sha256Round (st : List Nat) (kw : Nat × Nat) : List Nat :=
  match st with
  | [a, b, c, d, e, f, g, h] =>
    let s1 := rotr32 e 6 ^^^ rotr32 e 11 ^^^ rotr32 e 25
    let ch := (e &&& f) ^^^ ((4294967295 - e) &&& g)
    let t1 := w32 (h + s1 + ch + kw.1 + kw.2)
    let s0 := rotr32 a 2 ^^^ rotr32 a 13 ^^^ rotr32 a 22
    let maj := (a &&& b) ^^^ (a &&& c) ^^^ (b &&& c)
    let t2 := w32 (s0 + maj)
    [w32 (t1 + t2), a, b, c, w32 (d + t1), e, f, g]
  | other => other

/-- Compress one 64-byte block into the running hash state. -/
def sha256Compress (hState : List Nat) (block : List Nat) : List Nat :=
  let w := sha256Schedule block
  let kw := sha256K.zip w.toList
  let out := kw.foldl sha256Round hState
  (hState.zip out).map (fun p => w32 (p.1 + p.2))

/-- SHA-256 digest (32 bytes) of a byte sequence. -/
def sha256 (msg : List Nat) : List Nat :=
  let padded := sha256Pad msg
  let blocks := (List.range (padded.length / 64)).map
    (fun i => (padded.drop (64 * i)).take 64)
  let hFinal := blocks.foldl sha256Compress sha256H0
  hFinal.foldr
    (fun word acc =>
      word / 2 ^ 24 % 256 :: word / 2 ^ 16 % 256 :: word / 2 ^ 8 % 256 ::
        word % 256 :: acc)
    []

/-- HMAC-SHA256 (`hmac.new(key, msg, hashlib.sha256)`), block size 64. -/
def hmacSha256 (key msg : List Nat) : List Nat :=
  let k0 := if 64 < key.length then sha256 key else key
  let kp := k0 ++ List.replicate (64 - k0.length) 0
  let ipad := kp.map (fun b => b ^^^ 54)
  let opad := kp.map (fun b => b ^^^ 92)
  sha256 (opad ++ sha256 (ipad ++ msg))

/-- `bytes.hex()` of one byte: two lower-case hex digits. -/
def byteToHex (b : Nat) : List Char :=
  [hexDigit (b / 16 % 16), hexDigit (b % 16)]

/-- `.hexdigest()`: lower-case hex string of a digest. -/
def hexOfBytes (bs : List Nat) : String :=
  String.mk (bs.foldr (fun b acc => byteToHex b ++ acc) [])

/-- `WebhookDispatcher._sign_payload`: hex HMAC-SHA256 of the payload bytes
keyed by the UTF-8 encoding of the secret. -/
def signPayload (payload : List Nat) (secret : String) : String :=
  hexOfBytes (hmacSha256 (utf8Bytes secret.data) payload)

/- ------------------------------------------------------------------ -/
/- Dispatcher data model (webhooks/dispatcher.py)                      -/
/- ------------------------------------------------------------------ -/

def DEFAULT_TIMEOUT_SECONDS : Nat := 10

def MAX_PAYLOAD_SIZE : Nat := 1024 * 1024

def MAX_RETRY_COUNT : Nat := 3

def MAX_CONSECUTIVE_FAILURES : Nat := 5

def RETRY_DELAYS : List Nat := [1, 2, 4]

/-- `WebhookDispatchTask`. -/
structure WebhookDispatchTask where
  webhook : Webhook
  eventType : String
  payload : JsonValue
  retryCount : Nat := 0
  createdAt : Nat
  deliveryId : String
deriving Repr

/-- `WebhookDispatchResult`. -/
structure WebhookDispatchResult where
  webhookId : String
  success : Bool
  deliveryId : String
  responseStatus : Option Nat := none
  responseBody : Option String := none
  errorMessage : Option String := none
  responseTimeMs : Option Nat := none
  retryCount : Nat := 0
deriving DecidableEq, Repr

/-- Oracle for the single `requests.post` call: what the network does. -/
inductive HttpOutcome where
  | timeout
  | requestError (msg : String)
  | response (status : Nat) (body : String)
  | otherError (msg : String)
deriving DecidableEq, Repr

/-- The outgoing HTTP request as constructed by `_send_webhook_request`
(`requests.post(webhook.url, data=payload_json, headers=headers,
timeout=...)`). -/
structure HttpRequest where
  url : String
  body : String
  headers : List (String × String)
  timeoutSeconds : Nat
deriving DecidableEq, Repr

/-- Classification of the branch of `_send_webhook_request` that produced
the result; the names follow the error kinds of the documentation. -/
inductive SendKind where
  | ok
  | disallowedScheme
  | payloadTooLarge
  | timeout
  | network
  | httpError
  | unexpected
deriving DecidableEq, Repr

/-- Full outcome of one `_send_webhook_request` call: the returned
`WebhookDispatchResult`, the request handed to `requests.post` (`none`
when the preflight checks failed before any network I/O), and the branch
classification. -/
structure SendOutcome where
  result : WebhookDispatchResult
  request : Option HttpRequest
  kind : SendKind
deriving DecidableEq, Repr

/-- First element of `url.split("://")`: the characters before the first
occurrence of the separator, or the whole string when it does not occur. -/
def splitHead (sep : List Char) : List Char → List Char
  | [] => []
  | c :: cs => if sep.isPrefixOf (c :: cs) then [] else c :: splitHead sep cs

/-- Whether the separator occurs anywhere in the string. -/
def hasSepOccurrence (sep : List Char) : List Char → Bool
  | [] => decide (sep.isPrefixOf ([] : List Char))
  | c :: cs => sep.isPrefixOf (c :: cs) || hasSepOccurrence sep cs

/-- Python `str.lower()` (character-wise lowering; the modelled inputs are
ASCII, where Python and `Char.toLower` agree). -/
def pyLower (s : String) : String :=
  String.mk (s.data.map Char.toLower)

/-- `webhook.url.split("://")[0].lower()`. -/
def urlScheme (url : String) : String :=
  pyLower (String.mk (splitHead "://".data url.data))

/-- Header dict lookup (`headers[k]`), first match. -/
def headersGet (hs : List (String × String)) (k : String) : Option String :=
  (hs.find? (fun kv => kv.1 == k)).map Prod.snd

/-- The headers dict of `_send_webhook_request` (lines 342-366): the four
fixed entries, plus `X-MLflow-Signature` appended when the webhook has a
non-empty secret (`if webhook.secret:`). -/
def sendHeaders (webhook : Webhook) (payload : JsonValue)
    (deliveryId : String) (eventTypeVal : String) : List (String × String) :=
  let baseHeaders :=
    [("Content-Type", "application/json"),
     ("User-Agent", "MLflow-Webhook/1.0"),
     ("X-MLflow-Event", eventTypeVal),
     ("X-MLflow-Delivery", deliveryId)]
  match webhook.secret with
  | some s =>
    if s ≠ "" then
      baseHeaders ++
        [("X-MLflow-Signature",
          "sha256=" ++ signPayload (utf8Bytes (jsonDumpsChars payload)) s)]
    else baseHeaders
  | none => baseHeaders

/-- The request handed to `requests.post(webhook.url, data=payload_json,
headers=headers, timeout=DEFAULT_TIMEOUT_SECONDS)`. -/
def sendRequestOf (webhook : Webhook) (payload : JsonValue)
    (deliveryId : String) (eventTypeVal : String) : HttpRequest :=
  { url := webhook.url, body := jsonDumps payload,
    headers := sendHeaders webhook payload deliveryId eventTypeVal,
    timeoutSeconds := DEFAULT_TIMEOUT_SECONDS }

/-- `WebhookDispatcher._send_webhook_request`.

`allowedSchemes` is the value of `MLFLOW_WEBHOOKS_ALLOWED_SCHEMES.get()`
(ambient configuration); `net` is the network oracle consumed only at the
`requests.post` call. Wall-clock `response_time_ms` is not modelled and is
left `none`. A payload without an `"event_type"` key raises `KeyError` at
the header construction, caught by the catch-all `except` clause. -/
def sendWebhookRequest (allowedSchemes : List String) (webhook : Webhook)
    (payload : JsonValue) (deliveryId : String) (net : HttpOutcome) :
    SendOutcome :=
  let scheme := urlScheme webhook.url
  if ¬ allowedSchemes.contains scheme then
    { result :=
        { webhookId := webhook.id, success := false, deliveryId,
          errorMessage := some ("URL scheme \x27" ++ scheme ++
            "\x27 not allowed. Allowed schemes: " ++
            String.intercalate ", " allowedSchemes) },
      request := none, kind := .disallowedScheme }
  else
    match jsonLookup payload "event_type" with
    | some (JsonValue.str eventTypeVal) =>
      let payloadBytes := utf8Bytes (jsonDumps payload).data
      if MAX_PAYLOAD_SIZE < payloadBytes.length then
        { result :=
            { webhookId := webhook.id, success := false, deliveryId,
              errorMessage := some ("Payload size (" ++
                toString payloadBytes.length ++
                " bytes) exceeds maximum allowed size (" ++
                toString MAX_PAYLOAD_SIZE ++ " bytes)") },
          request := none, kind := .payloadTooLarge }
      else
        let req : HttpRequest := sendRequestOf webhook payload deliveryId eventTypeVal
        match net with
        | .timeout =>
          { result :=
              { webhookId := webhook.id, success := false, deliveryId,
                errorMessage := some ("Request timeout after " ++
                  toString DEFAULT_TIMEOUT_SECONDS ++ " seconds") },
            request := some req, kind := .timeout }
        | .requestError m =>
          { result :=
              { webhookId := webhook.id, success := false, deliveryId,
                errorMessage := some ("Request failed: " ++ m) },
            request := some req, kind := .network }
        | .otherError m =>
          { result :=
              { webhookId := webhook.id, success := false, deliveryId,
                errorMessage := some ("Unexpected error: " ++ m) },
            request := some req, kind := .unexpected }
        | .response status body =>
          if 400 ≤ status ∧ status < 600 then
            { result :=
                { webhookId := webhook.id, success := false, deliveryId,
                  errorMessage := some ("Request failed: " ++
                    toString status ++ " error for url: " ++ webhook.url) },
              request := some req, kind := .httpError }
          else
            { result :=
                { webhookId := webhook.id, success := true, deliveryId,
                  responseStatus := some status,
                  responseBody := some (body.take 1000) },
              request := some req, kind := .ok }
    | _ =>
      { result :=
          { webhookId := webhook.id, success := false, deliveryId,
            errorMessage := some "Unexpected error: \x27event_type\x27" },
        request := none, kind := .unexpected }

/- ------------------------------------------------------------------ -/
/- Dispatcher state, effects, failure handling                          -/
/- ------------------------------------------------------------------ -/

/-- Constructor options of `WebhookDispatcher.__init__` relevant to the
modelled paths. -/
structure DispatcherConfig where
  queueSize : Nat := 1000
  autoDisableOnFailure : Bool := true
deriving DecidableEq, Repr

/-- Python `dict[str, int]` lookup. -/
def dictGet : List (String × Nat) → String → Option Nat
  | [], _ => none
  | kv :: rest, k => if kv.1 == k then some kv.2 else dictGet rest k

/-- Python `dict[str, int]` assignment `d[k] = v`: overwrite in place when
the key exists, append otherwise (insertion-order semantics). -/
def dictSet : List (String × Nat) → String → Nat → List (String × Nat)
  | [], k, v => [(k, v)]
  | kv :: rest, k, v =>
    if kv.1 == k then (kv.1, v) :: rest else kv :: dictSet rest k v

/-- Python `del d[k]` (no-op when absent, matching the guarded delete in
`_reset_failure_count`). -/
def dictErase (d : List (String × Nat)) (k : String) : List (String × Nat) :=
  d.filter (fun kv => kv.1 ≠ k)

/-- Mutable dispatcher state touched by the modelled paths: the bounded
FIFO dispatch queue and the consecutive-failure counters (the latter are
accessed under `self._failure_lock` in the source; the embedding is
sequential, so the mutex itself is not modelled). -/
structure DispatcherState where
  queue : List WebhookDispatchTask := []
  failureCounts : List (String × Nat) := []
deriving Repr

/-- Externally visible effects of one modelled call. -/
structure DispatchEffects where
  sleeps : List Nat := []
  enqueuedRetries : List WebhookDispatchTask := []
  retryDropped : Bool := false
  updateWebhookCalls : List String := []
  cacheRefreshes : Nat := 0
  queuedTasks : List WebhookDispatchTask := []
  initialDrops : List String := []
  loggedErrors : List String := []
deriving Repr

/-- `WebhookDispatcher._handle_dispatch_failure`.

`updateSucceeds` is the oracle for whether
`store.update_webhook(webhook_id, status=DISABLED)` returns normally or
raises. The source returns immediately when `auto_disable_on_failure` is
false, before touching the counters. -/
def handleDispatchFailure (cfg : DispatcherConfig) (st : DispatcherState)
    (webhookId : String) (updateSucceeds : Bool) :
    DispatcherState × DispatchEffects :=
  if cfg.autoDisableOnFailure = false then (st, {})
  else
    let newCount := (dictGet st.failureCounts webhookId).getD 0 + 1
    let counts1 := dictSet st.failureCounts webhookId newCount
    if MAX_CONSECUTIVE_FAILURES ≤ newCount then
      if updateSucceeds then
        ({ st with failureCounts := dictSet counts1 webhookId 0 },
         { updateWebhookCalls := [webhookId], cacheRefreshes := 1 })
      else
        ({ st with failureCounts := counts1 },
         { updateWebhookCalls := [webhookId] })
    else
      ({ st with failureCounts := counts1 }, {})

/-- `WebhookDispatcher._reset_failure_count`. -/
def resetFailureCount (st : DispatcherState) (webhookId : String) :
    DispatcherState :=
  { st with failureCounts := dictErase st.failureCounts webhookId }

/-- The retry task built by `_process_dispatch_task`: same webhook, event
type, payload, `created_at` and `delivery_id`, with `retry_count + 1`. -/
def retryTaskOf (task : WebhookDispatchTask) : WebhookDispatchTask :=
  { webhook := task.webhook, eventType := task.eventType,
    payload := task.payload, retryCount := task.retryCount + 1,
    createdAt := task.createdAt, deliveryId := task.deliveryId }

/-- `WebhookDispatcher._process_dispatch_task`.

The tuple indexing `self.RETRY_DELAYS[task.retry_count]` is modelled by
`List.get?`; a `none` overall result models an uncaught `IndexError`.
`queue.put_nowait` raises `queue.Full` exactly when `0 < maxsize` and the
queue already holds at least `maxsize` items (`queue.Queue(maxsize=0)` is
unbounded). Returns the new state, the effects, and the
`WebhookDispatchResult` of the attempt. -/
def processDispatchTask (cfg : DispatcherConfig)
    (allowedSchemes : List String) (st : DispatcherState)
    (task : WebhookDispatchTask) (net : HttpOutcome)
    (updateSucceeds : Bool) :
    Option (DispatcherState × DispatchEffects × WebhookDispatchResult) :=
  let out := sendWebhookRequest allowedSchemes task.webhook task.payload
    task.deliveryId net
  let result := out.result
  if result.success = false ∧ task.retryCount < MAX_RETRY_COUNT then
    match RETRY_DELAYS.get? task.retryCount with
    | none => none
    | some retryDelay =>
      let retryTask : WebhookDispatchTask := retryTaskOf task
      if cfg.queueSize = 0 ∨ st.queue.length < cfg.queueSize then
        some ({ st with queue := st.queue ++ [retryTask] },
          { sleeps := [retryDelay], enqueuedRetries := [retryTask] }, result)
      else
        let h := handleDispatchFailure cfg st task.webhook.id updateSucceeds
        some (h.1, { h.2 with sleeps := [retryDelay], retryDropped := true },
          result)
  else if result.success = false then
    let h := handleDispatchFailure cfg st task.webhook.id updateSucceeds
    some (h.1, h.2, result)
  else
    some (resetFailureCount st task.webhook.id, {}, result)

/- ------------------------------------------------------------------ -/
/- Producer API: dispatch_webhook                                       -/
/- ------------------------------------------------------------------ -/

/-- `WebhookDispatcher._build_webhook_payload`. -/
def buildWebhookPayload (eventType : String) (data : JsonValue)
    (timestampMs : Nat) (deliveryId : String) : JsonValue :=
  .obj [("event_type", .str eventType), ("timestamp", .num timestampMs),
        ("delivery_id", .str deliveryId), ("data", data)]

/-- `WebhookCache.get_active_webhooks_for_event`. -/
def getActiveWebhooksForEvent (snapshot : List Webhook)
    (eventType : String) : List Webhook :=
  snapshot.filter (fun w => w.shouldTriggerForEvent eventType)

/-- The `WebhookDispatchTask` built for the `i`-th active webhook of one
`dispatch_webhook` call: fresh delivery id, envelope payload,
`retry_count = 0`. -/
def dispatchTaskFor (eventType : String) (data : JsonValue)
    (timestampMs : Nat) (createdAt : Nat) (freshIds : Nat → String)
    (iw : Nat × Webhook) : WebhookDispatchTask :=
  { webhook := iw.2, eventType,
    payload := buildWebhookPayload eventType data timestampMs (freshIds iw.1),
    retryCount := 0, createdAt, deliveryId := freshIds iw.1 }

/-- One iteration of the `for webhook in active_webhooks` loop of
`dispatch_webhook`: build the envelope and the task, `put_nowait` it, and
on `queue.Full` log a warning, drop it, and continue. As in
`processDispatchTask`, `put_nowait` raises `queue.Full` only when
`0 < maxsize` and the queue is at capacity (maxsize 0 is unbounded). -/
def dispatchStep (cfg : DispatcherConfig) (eventType : String)
    (data : JsonValue) (timestampMs : Nat) (createdAt : Nat)
    (freshIds : Nat → String) (acc : DispatcherState × DispatchEffects)
    (iw : Nat × Webhook) : DispatcherState × DispatchEffects :=
  let task := dispatchTaskFor eventType data timestampMs createdAt freshIds iw
  if cfg.queueSize = 0 ∨ acc.1.queue.length < cfg.queueSize then
    ({ acc.1 with queue := acc.1.queue ++ [task] },
     { acc.2 with queuedTasks := acc.2.queuedTasks ++ [task] })
  else
    (acc.1,
     { acc.2 with initialDrops := acc.2.initialDrops ++ [iw.2.id] })

/-- `WebhookDispatcher.dispatch_webhook`.

`cacheSnapshot` is the outcome of the
`self._webhook_cache.get_active_webhooks_for_event` call: `.error`
models any exception inside the `try` body, which the catch-all
`except Exception` turns into a logged error and a normal return.
`freshIds i` is the `uuid4` delivery id generated for the `i`-th active
webhook; `timestampMs` and `createdAt` are the wall-clock reads. -/
def dispatchWebhook (cfg : DispatcherConfig) (st : DispatcherState)
    (cacheSnapshot : Except String (List Webhook)) (eventType : String)
    (data : JsonValue) (timestampMs : Nat) (createdAt : Nat)
    (freshIds : Nat → String) : DispatcherState × DispatchEffects :=
  match cacheSnapshot with
  | .error e =>
    (st, { loggedErrors := ["Error in webhook dispatcher: " ++ e] })
  | .ok snapshot =>
    let active := getActiveWebhooksForEvent snapshot eventType
    if active.isEmpty then (st, {})
    else
      active.enum.foldl
        (dispatchStep cfg eventType data timestampMs createdAt freshIds)
        (st, {})

/- ------------------------------------------------------------------ -/
/- Webhook cache (webhooks/webhook_cache.py)                            -/
/- ------------------------------------------------------------------ -/

/-- Store capability as consumed by the cache: one `list_webhooks` call
with an optional page token, returning a page and an optional next page
token, or raising. -/
structure WebhookStoreModel where
  listWebhooks : Option String → Except String (List Webhook × Option String)

/-- `WebhookCache` state relevant to refresh. -/
structure CacheState where
  webhooks : List Webhook := []
  store : Option WebhookStoreModel := none
  lastRefresh : Nat := 0

/-- `WebhookCache._refresh_cache`: one `store.list_webhooks()` call with
default arguments; the second tuple component (the next page token) is
bound to `_` and discarded; exceptions leave the previous snapshot. -/
def refreshCache (cache : CacheState) (now : Nat) : CacheState :=
  match cache.store with
  | none => cache
  | some store =>
    match store.listWebhooks none with
    | .error _ => cache
    | .ok pageAndToken =>
      { cache with webhooks := pageAndToken.1, lastRefresh := now }

/-- Modelled from the spec: the repository-side store implementations of
`list_webhooks` are not under `src/`, so the spec sentence "Pagination,
when present, must be walked to completion" is modelled as a reference
definition that follows `next_page_token` until it is exhausted
(fuel-bounded). It is compared against `refreshCache`, which embeds the
source. -/
def listAllWebhooksSpec (store : WebhookStoreModel) :
    Nat → Option String → Except String (List Webhook)
  | 0, _ => .error "out of fuel"
  | fuel + 1, token =>
    match store.listWebhooks token with
    | .error e => .error e
    | .ok (page, none) => .ok page
    | .ok (page, some next) =>
      match listAllWebhooksSpec store fuel (some next) with
      | .error e => .error e
      | .ok rest => .ok (page ++ rest)

/- ------------------------------------------------------------------ -/
/- Helper lemmas                                                       -/
/- ------------------------------------------------------------------ -/

lemma contains_eq_mem (A : List String) (x : String) :
    A.contains x = true ↔ x ∈ A := List.elem_iff

/-- The sender reports kind `DISALLOWED_SCHEME` exactly when the lowered
scheme is missing from the allow-list. -/
lemma sendKind_disallowed_iff (A : List String) (w : Webhook)
    (payload : JsonValue) (did : String) (net : HttpOutcome) :
    (sendWebhookRequest A w payload did net).kind = SendKind.disallowedScheme
      ↔ A.contains (urlScheme w.url) = false := by
  simp only [sendWebhookRequest]
  split
  · next h =>
    simp only [Bool.not_eq_true] at h
    exact iff_of_true rfl h
  · next h =>
    rw [not_not] at h
    split <;> (try split) <;> (try split) <;> (try split) <;> (try split) <;>
      exact iff_of_false (by simp) (by simp [(contains_eq_mem _ _).mp h])

/-- A send attempt succeeds exactly in the 2xx/3xx response branch. -/
lemma send_success_iff_ok (A : List String) (w : Webhook)
    (payload : JsonValue) (did : String) (net : HttpOutcome) :
    (sendWebhookRequest A w payload did net).result.success = true
      ↔ (sendWebhookRequest A w payload did net).kind = SendKind.ok := by
  simp only [sendWebhookRequest]
  split
  · exact iff_of_false (by simp) (by simp)
  · split <;> (try split) <;> (try split) <;> (try split) <;> (try split) <;>
      first
      | exact iff_of_true rfl rfl
      | exact iff_of_false (by simp) (by simp)

lemma dictGet_dictSet_self (d : List (String × Nat)) (k : String) (v : Nat) :
    dictGet (dictSet d k v) k = some v := by
  induction d with
  | nil => simp [dictSet, dictGet]
  | cons kv rest ih =>
    by_cases h : kv.1 == k
    · simp [dictSet, dictGet, h]
    · simp only [dictSet, dictGet, h]
      simpa [h] using ih

lemma splitHead_of_no_sep (sep : List Char) (l : List Char)
    (h : hasSepOccurrence sep l = false) : splitHead sep l = l := by
  induction l with
  | nil => simp [splitHead]
  | cons c cs ih =>
    simp only [hasSepOccurrence, Bool.or_eq_false_iff] at h
    simp [splitHead, h.1, ih h.2]

/- ------------------------------------------------------------------ -/
/- Concrete fixtures                                                    -/
/- ------------------------------------------------------------------ -/

/-- A webhook whose URL scheme (`file`) is outside the allow-list. -/
def schemeWebhook : Webhook :=
  { id := "wh-1", name := "w", url := "file://internal/x", events := ["E"] }

/-- A first-attempt task for `schemeWebhook`. -/
def schemeTask : WebhookDispatchTask :=
  { webhook := schemeWebhook, eventType := "E",
    payload := buildWebhookPayload "E" JsonValue.null 0 "d-1",
    retryCount := 0, createdAt := 0, deliveryId := "d-1" }

/- ------------------------------------------------------------------ -/
/- Claims                                                               -/
/- ------------------------------------------------------------------ -/

/-- C10: the retry branch of `_process_dispatch_task` is entered only when
`retry_count < MAX_RETRY_COUNT`, and `MAX_RETRY_COUNT = 3` equals the
length of `RETRY_DELAYS`, so `RETRY_DELAYS[task.retry_count]` is always in
bounds: processing any task (in particular any with
`0 ≤ retry_count ≤ MAX_RETRY_COUNT`) never raises `IndexError`. -/
theorem c10_retry_delay_indexing_in_bounds :
    MAX_RETRY_COUNT = 3 ∧ RETRY_DELAYS.length = 3 ∧
      ∀ (cfg : DispatcherConfig) (A : List String) (st : DispatcherState)
        (task : WebhookDispatchTask) (net : HttpOutcome) (upd : Bool),
        (processDispatchTask cfg A st task net upd).isSome = true := by
  refine ⟨rfl, rfl, fun cfg A st task net upd => ?_⟩
  simp only [processDispatchTask]
  split
  · next h =>
    have hlt : task.retryCount < RETRY_DELAYS.length := h.2
    rw [List.get?_eq_get hlt]
    split
    · next heq => simp at heq
    · split <;> simp
  · split <;> simp

/-- C1 counterexample: a task whose send attempt fails with the
`DISALLOWED_SCHEME` kind at `retry_count = 0` is NOT terminal: the worker
sleeps the scheduled 1-second delay, re-enqueues a retry task, and does
not run terminal failure handling. -/
theorem c1_counterexample :
    (processDispatchTask {} ["https"] {} schemeTask (.response 200 "") true).map
        (fun r => (r.2.2.errorMessage, r.2.1.sleeps, r.2.1.enqueuedRetries.length,
          r.2.1.updateWebhookCalls))
      = some (some "URL scheme \x27file\x27 not allowed. Allowed schemes: https",
          [1], 1, []) := by
  decide

/-- C1 (amended): send failures of kind `DISALLOWED_SCHEME` or
`PAYLOAD_TOO_LARGE` are retried exactly like any other failure: while
`retry_count < MAX_RETRY_COUNT` the worker sleeps
`RETRY_DELAYS[retry_count]` and re-enqueues a retry task (when the queue
has room); they become terminal, with immediate terminal failure
handling, only once `retry_count ≥ MAX_RETRY_COUNT`. -/
theorem c1_amended_preflight_failures_retried (cfg : DispatcherConfig)
    (A : List String) (st : DispatcherState) (task : WebhookDispatchTask)
    (net : HttpOutcome) (upd : Bool)
    (hk : (sendWebhookRequest A task.webhook task.payload task.deliveryId net).kind
            = SendKind.disallowedScheme
        ∨ (sendWebhookRequest A task.webhook task.payload task.deliveryId net).kind
            = SendKind.payloadTooLarge) :
    (task.retryCount < MAX_RETRY_COUNT →
      st.queue.length < cfg.queueSize →
      processDispatchTask cfg A st task net upd =
        some ({ st with queue := st.queue ++ [retryTaskOf task] },
          { sleeps := [RETRY_DELAYS.getD task.retryCount 0],
            enqueuedRetries := [retryTaskOf task] },
          (sendWebhookRequest A task.webhook task.payload task.deliveryId net).result))
    ∧ (MAX_RETRY_COUNT ≤ task.retryCount →
      processDispatchTask cfg A st task net upd =
        some ((handleDispatchFailure cfg st task.webhook.id upd).1,
          (handleDispatchFailure cfg st task.webhook.id upd).2,
          (sendWebhookRequest A task.webhook task.payload task.deliveryId net).result)) := by
  have hfail : (sendWebhookRequest A task.webhook task.payload task.deliveryId net).result.success = false := by
    rw [Bool.eq_false_iff]
    intro htrue
    have hok := (send_success_iff_ok A task.webhook task.payload task.deliveryId net).mp htrue
    rcases hk with h | h <;> rw [h] at hok <;> cases hok
  constructor
  · intro hrc hroom
    have hlt : task.retryCount < RETRY_DELAYS.length := hrc
    simp only [processDispatchTask, if_pos (And.intro hfail hrc),
      List.get?_eq_get hlt]
    rw [if_pos (show cfg.queueSize = 0 ∨ st.queue.length < cfg.queueSize from
      Or.inr hroom)]
    simp [List.getD_eq_getElem?_getD, List.getElem?_eq_getElem hlt]
  · intro hge
    have hnot : ¬ ((sendWebhookRequest A task.webhook task.payload task.deliveryId net).result.success = false
        ∧ task.retryCount < MAX_RETRY_COUNT) := by
      rintro ⟨-, hlt⟩; omega
    simp only [processDispatchTask, if_neg hnot, if_pos hfail]

/-- C1 witness: the amended behavior at a concrete scheme-disallowed task. -/
theorem c1_amended_witness :
    ((sendWebhookRequest ["https"] schemeTask.webhook schemeTask.payload
        schemeTask.deliveryId (.response 200 "")).kind = SendKind.disallowedScheme
      ∧ schemeTask.retryCount < MAX_RETRY_COUNT
      ∧ (({} : DispatcherState)).queue.length < (({} : DispatcherConfig)).queueSize)
    ∧ processDispatchTask {} ["https"] {} schemeTask (.response 200 "") true =
        some ({ ({} : DispatcherState) with queue := [retryTaskOf schemeTask] },
          { sleeps := [RETRY_DELAYS.getD schemeTask.retryCount 0],
            enqueuedRetries := [retryTaskOf schemeTask] },
          (sendWebhookRequest ["https"] schemeTask.webhook schemeTask.payload
            schemeTask.deliveryId (.response 200 "")).result) :=
  ⟨⟨by decide, by decide, by decide⟩,
    (c1_amended_preflight_failures_retried {} ["https"] {} schemeTask
      (.response 200 "") true (Or.inl (by decide))).1 (by decide) (by decide)⟩

/-- C5: every task that fails and is re-enqueued is re-enqueued as
`retryTaskOf task`, which keeps `delivery_id`, `payload`, `event_type` and
`created_at` and increments `retry_count` by exactly one. -/
theorem c5_retry_task_preserves_fields (cfg : DispatcherConfig)
    (A : List String) (st : DispatcherState) (task : WebhookDispatchTask)
    (net : HttpOutcome) (upd : Bool)
    (hfail : (sendWebhookRequest A task.webhook task.payload task.deliveryId net).result.success = false)
    (hrc : task.retryCount < MAX_RETRY_COUNT)
    (hroom : st.queue.length < cfg.queueSize) :
    processDispatchTask cfg A st task net upd =
      some ({ st with queue := st.queue ++ [retryTaskOf task] },
        { sleeps := [RETRY_DELAYS.getD task.retryCount 0],
          enqueuedRetries := [retryTaskOf task] },
        (sendWebhookRequest A task.webhook task.payload task.deliveryId net).result)
    ∧ (retryTaskOf task).deliveryId = task.deliveryId
    ∧ (retryTaskOf task).payload = task.payload
    ∧ (retryTaskOf task).eventType = task.eventType
    ∧ (retryTaskOf task).createdAt = task.createdAt
    ∧ (retryTaskOf task).retryCount = task.retryCount + 1 := by
  refine ⟨?_, rfl, rfl, rfl, rfl, rfl⟩
  have hlt : task.retryCount < RETRY_DELAYS.length := hrc
  simp only [processDispatchTask, if_pos (And.intro hfail hrc),
    List.get?_eq_get hlt]
  rw [if_pos (show cfg.queueSize = 0 ∨ st.queue.length < cfg.queueSize from
    Or.inr hroom)]
  simp [List.getD_eq_getElem?_getD, List.getElem?_eq_getElem hlt]

/-- A webhook and task whose attempt fails with an HTTP 503 response. -/
def httpFailWebhook : Webhook :=
  { id := "wh-3", name := "w3", url := "https://example.com/hook", events := ["E"] }

def httpFailTask : WebhookDispatchTask :=
  { webhook := httpFailWebhook, eventType := "E",
    payload := buildWebhookPayload "E" JsonValue.null 0 "d-3",
    retryCount := 0, createdAt := 0, deliveryId := "d-3" }

/-- C5 witness: the retry invariant at a concrete HTTP-503 failure. -/
theorem c5_retry_task_preserves_fields_witness :
    ((sendWebhookRequest ["https"] httpFailTask.webhook httpFailTask.payload
        httpFailTask.deliveryId (.response 503 "bad")).result.success = false
      ∧ httpFailTask.retryCount < MAX_RETRY_COUNT
      ∧ (({} : DispatcherState)).queue.length < (({} : DispatcherConfig)).queueSize)
    ∧ processDispatchTask {} ["https"] {} httpFailTask (.response 503 "bad") true =
        some ({ ({} : DispatcherState) with queue := [retryTaskOf httpFailTask] },
          { sleeps := [RETRY_DELAYS.getD httpFailTask.retryCount 0],
            enqueuedRetries := [retryTaskOf httpFailTask] },
          (sendWebhookRequest ["https"] httpFailTask.webhook httpFailTask.payload
            httpFailTask.deliveryId (.response 503 "bad")).result)
    ∧ (retryTaskOf httpFailTask).retryCount = httpFailTask.retryCount + 1 :=
  ⟨⟨by decide, by decide, by decide⟩,
    (c5_retry_task_preserves_fields {} ["https"] {} httpFailTask
      (.response 503 "bad") true (by decide) (by decide) (by decide)).1,
    (c5_retry_task_preserves_fields {} ["https"] {} httpFailTask
      (.response 503 "bad") true (by decide) (by decide) (by decide)).2.2.2.2.2⟩

/-- A task for `schemeWebhook` that has exhausted its retries. -/
def terminalSchemeTask : WebhookDispatchTask :=
  { webhook := schemeWebhook, eventType := "E",
    payload := buildWebhookPayload "E" JsonValue.null 0 "d-1",
    retryCount := 3, createdAt := 0, deliveryId := "d-1" }

/-- C3 counterexample: with `auto_disable_on_failure = False`, a task that
reaches terminal failure does NOT increment its webhook's
consecutive-failure counter: `_handle_dispatch_failure` returns before the
increment, leaving the counters empty. -/
theorem c3_counterexample :
    (processDispatchTask { autoDisableOnFailure := false } ["https"] {}
        terminalSchemeTask (.response 200 "") true).map
        (fun r => (r.1.failureCounts, r.2.1.updateWebhookCalls, r.2.2.success))
      = some ([], [], false) := by
  decide

/-- C3 (amended): terminal failures invoke `_handle_dispatch_failure`;
when `auto_disable_on_failure` is disabled the handler returns immediately
without touching the counters, and when it is enabled (and the new count is
below the disable threshold) the counter for the webhook id is incremented
by exactly 1 and no disable call is made: the option gates the increment
itself, not merely the disable step. -/
theorem c3_amended_increment_gated (cfg : DispatcherConfig)
    (A : List String) (st : DispatcherState) (task : WebhookDispatchTask)
    (net : HttpOutcome) (upd : Bool) (webhookId : String) :
    ((sendWebhookRequest A task.webhook task.payload task.deliveryId net).result.success = false →
      MAX_RETRY_COUNT ≤ task.retryCount →
      processDispatchTask cfg A st task net upd =
        some ((handleDispatchFailure cfg st task.webhook.id upd).1,
          (handleDispatchFailure cfg st task.webhook.id upd).2,
          (sendWebhookRequest A task.webhook task.payload task.deliveryId net).result))
    ∧ (cfg.autoDisableOnFailure = false →
        handleDispatchFailure cfg st webhookId upd = (st, {}))
    ∧ (cfg.autoDisableOnFailure = true →
        (dictGet st.failureCounts webhookId).getD 0 + 1 < MAX_CONSECUTIVE_FAILURES →
        (handleDispatchFailure cfg st webhookId upd).1.failureCounts
            = dictSet st.failureCounts webhookId
                ((dictGet st.failureCounts webhookId).getD 0 + 1)
        ∧ dictGet (handleDispatchFailure cfg st webhookId upd).1.failureCounts webhookId
            = some ((dictGet st.failureCounts webhookId).getD 0 + 1)
        ∧ (handleDispatchFailure cfg st webhookId upd).2.updateWebhookCalls = []) := by
  refine ⟨fun hfail hge => ?_, fun hoff => ?_, fun hon hlt => ?_⟩
  · have hnot : ¬ ((sendWebhookRequest A task.webhook task.payload task.deliveryId net).result.success = false
        ∧ task.retryCount < MAX_RETRY_COUNT) := by
      rintro ⟨-, h⟩; omega
    simp only [processDispatchTask, if_neg hnot, if_pos hfail]
  · simp [handleDispatchFailure, hoff]
  · have h1 : ¬ (cfg.autoDisableOnFailure = false) := by simp [hon]
    simp only [handleDispatchFailure, if_neg h1, if_neg (by omega : ¬ MAX_CONSECUTIVE_FAILURES ≤ (dictGet st.failureCounts webhookId).getD 0 + 1)]
    simp [dictGet_dictSet_self]

/-- C3 witness: a first failure under the default (enabled) policy sets the
counter to exactly 1. -/
theorem c3_amended_witness :
    (({} : DispatcherConfig).autoDisableOnFailure = true
      ∧ (dictGet ({} : DispatcherState).failureCounts "wh-1").getD 0 + 1
          < MAX_CONSECUTIVE_FAILURES)
    ∧ (handleDispatchFailure {} {} "wh-1" true).1.failureCounts = [("wh-1", 1)]
    ∧ dictGet (handleDispatchFailure {} {} "wh-1" true).1.failureCounts "wh-1" = some 1 :=
  ⟨⟨by decide, by decide⟩,
    (c3_amended_increment_gated {} [] {} schemeTask (.response 200 "") true
      "wh-1").2.2 (by decide) (by decide) |>.1,
    (c3_amended_increment_gated {} [] {} schemeTask (.response 200 "") true
      "wh-1").2.2 (by decide) (by decide) |>.2.1⟩

/-- C4: with `auto_disable_on_failure` enabled, a terminal failure that
raises the count to at least `MAX_CONSECUTIVE_FAILURES` calls
`store.update_webhook(id, status=DISABLED)`; if that call returns, the
counter is reset to 0 and the cache is refreshed; if it raises, the counter
keeps its incremented value and no refresh happens. -/
theorem c4_auto_disable_on_threshold (cfg : DispatcherConfig)
    (st : DispatcherState) (webhookId : String) (upd : Bool)
    (hen : cfg.autoDisableOnFailure = true)
    (hth : MAX_CONSECUTIVE_FAILURES ≤ (dictGet st.failureCounts webhookId).getD 0 + 1) :
    (handleDispatchFailure cfg st webhookId upd).2.updateWebhookCalls = [webhookId]
    ∧ (upd = true →
        dictGet (handleDispatchFailure cfg st webhookId upd).1.failureCounts webhookId = some 0
        ∧ (handleDispatchFailure cfg st webhookId upd).2.cacheRefreshes = 1)
    ∧ (upd = false →
        dictGet (handleDispatchFailure cfg st webhookId upd).1.failureCounts webhookId
          = some ((dictGet st.failureCounts webhookId).getD 0 + 1)
        ∧ (handleDispatchFailure cfg st webhookId upd).2.cacheRefreshes = 0) := by
  have h1 : ¬ (cfg.autoDisableOnFailure = false) := by simp [hen]
  simp only [handleDispatchFailure, if_neg h1, if_pos hth]
  cases upd
  · simp [dictGet_dictSet_self]
  · simp [dictGet_dictSet_self]

/-- A dispatcher state whose counter for `wh-1` stands at 4 failures. -/
def stAtFour : DispatcherState := { failureCounts := [("wh-1", 4)] }

/-- C4 witness: the fifth consecutive failure disables and resets. -/
theorem c4_auto_disable_on_threshold_witness :
    (({} : DispatcherConfig).autoDisableOnFailure = true
      ∧ MAX_CONSECUTIVE_FAILURES ≤ (dictGet stAtFour.failureCounts "wh-1").getD 0 + 1)
    ∧ (handleDispatchFailure {} stAtFour "wh-1" true).2.updateWebhookCalls = ["wh-1"]
    ∧ dictGet (handleDispatchFailure {} stAtFour "wh-1" true).1.failureCounts "wh-1" = some 0
    ∧ (handleDispatchFailure {} stAtFour "wh-1" true).2.cacheRefreshes = 1 :=
  ⟨⟨by decide, by decide⟩,
    (c4_auto_disable_on_threshold {} stAtFour "wh-1" true (by decide) (by decide)).1,
    ((c4_auto_disable_on_threshold {} stAtFour "wh-1" true (by decide) (by decide)).2.1 rfl).1,
    ((c4_auto_disable_on_threshold {} stAtFour "wh-1" true (by decide) (by decide)).2.1 rfl).2⟩

/-- Two webhooks split across two store pages. -/
def pageW1 : Webhook :=
  { id := "w1", name := "n1", url := "https://a", events := ["E"] }

def pageW2 : Webhook :=
  { id := "w2", name := "n2", url := "https://b", events := ["E"] }

/-- A store whose `list_webhooks` paginates: the first call returns one
webhook and a `next_page_token`, the second call returns the rest. -/
def twoPageStore : WebhookStoreModel :=
  { listWebhooks := fun tok =>
      match tok with
      | none => .ok ([pageW1], some "page2")
      | some _ => .ok ([pageW2], none) }

def cacheWithTwoPages : CacheState := { store := some twoPageStore }

/-- C2 counterexample: on a paginated store, a successful refresh stores
only the first page — `w2` is missing from the snapshot even though
walking `next_page_token` to exhaustion would return both webhooks. -/
theorem c2_counterexample :
    (refreshCache cacheWithTwoPages 5).webhooks = [pageW1]
    ∧ listAllWebhooksSpec twoPageStore 2 none = .ok [pageW1, pageW2]
    ∧ [pageW1] ≠ [pageW1, pageW2] :=
  ⟨rfl, rfl, by decide⟩

/-- C2 (amended): each cache refresh makes exactly one
`store.list_webhooks()` call with default arguments and installs that
first page as the snapshot, discarding the returned `next_page_token`;
pagination is never walked, so the snapshot holds all webhooks only when
the first page already does. Store exceptions preserve the old snapshot. -/
theorem c2_amended_first_page_only (cache : CacheState)
    (store : WebhookStoreModel) (now : Nat)
    (hs : cache.store = some store) :
    (∀ page tok, store.listWebhooks none = .ok (page, tok) →
      (refreshCache cache now).webhooks = page
      ∧ (refreshCache cache now).lastRefresh = now)
    ∧ (∀ e, store.listWebhooks none = .error e →
      refreshCache cache now = cache) := by
  constructor
  · intro page tok hp
    simp [refreshCache, hs, hp]
  · intro e he
    simp [refreshCache, hs, he]

/-- C2 witness: the amended behavior at the concrete two-page store. -/
theorem c2_amended_witness :
    cacheWithTwoPages.store = some twoPageStore
    ∧ twoPageStore.listWebhooks none = .ok ([pageW1], some "page2")
    ∧ (refreshCache cacheWithTwoPages 5).webhooks = [pageW1] :=
  ⟨rfl, rfl,
    ((c2_amended_first_page_only cacheWithTwoPages twoPageStore 5 rfl).1
      [pageW1] (some "page2") rfl).1⟩

/-- In the disallowed-scheme case the sender returns the preflight-failure
result without constructing any request. -/
lemma send_disallowed_eq (A : List String) (w : Webhook)
    (payload : JsonValue) (did : String) (net : HttpOutcome)
    (h : A.contains (urlScheme w.url) = false) :
    sendWebhookRequest A w payload did net =
      { result :=
          { webhookId := w.id, success := false, deliveryId := did,
            errorMessage := some ("URL scheme \x27" ++ urlScheme w.url ++
              "\x27 not allowed. Allowed schemes: " ++
              String.intercalate ", " A) },
        request := none, kind := SendKind.disallowedScheme } := by
  simp only [sendWebhookRequest]
  rw [if_pos (show ¬ A.contains (urlScheme w.url) = true by
    intro hc; rw [hc] at h; simp at h)]

/-- C9: when the webhook URL contains no `"://"`, `split("://")[0]` is the
whole URL, so the preflight compares the lower-cased full URL against the
allow-list without raising; the attempt fails with the scheme-not-allowed
result (and no request is built) exactly when that lower-cased URL string
is not itself an allowed scheme. -/
theorem c9_url_without_separator (A : List String) (w : Webhook)
    (payload : JsonValue) (did : String) (net : HttpOutcome)
    (hno : hasSepOccurrence "://".data w.url.data = false) :
    urlScheme w.url = pyLower w.url
    ∧ ((sendWebhookRequest A w payload did net).kind = SendKind.disallowedScheme
        ↔ A.contains (pyLower w.url) = false)
    ∧ (A.contains (pyLower w.url) = false →
        (sendWebhookRequest A w payload did net).result.success = false
        ∧ (sendWebhookRequest A w payload did net).request = none) := by
  have hscheme : urlScheme w.url = pyLower w.url := by
    unfold urlScheme
    rw [splitHead_of_no_sep _ _ hno]
  refine ⟨hscheme, ?_, ?_⟩
  · rw [← hscheme]
    exact sendKind_disallowed_iff A w payload did net
  · intro hna
    rw [send_disallowed_eq A w payload did net (hscheme ▸ hna)]
    exact ⟨rfl, rfl⟩

def noSepWebhook : Webhook :=
  { id := "wh-9", name := "w9", url := "not-a-url", events := ["E"] }

/-- C9 witness: the separator-free URL `not-a-url` is compared whole. -/
theorem c9_url_without_separator_witness :
    hasSepOccurrence "://".data noSepWebhook.url.data = false
    ∧ ((sendWebhookRequest ["https"] noSepWebhook JsonValue.null "d"
          (.response 200 "")).kind = SendKind.disallowedScheme
        ↔ ["https"].contains (pyLower noSepWebhook.url) = false) :=
  ⟨by decide,
    (c9_url_without_separator ["https"] noSepWebhook JsonValue.null "d"
      (.response 200 "") (by decide)).2.1⟩

lemma dispatchStep_room (cfg : DispatcherConfig) (et : String)
    (data : JsonValue) (ts ca : Nat) (ids : Nat → String)
    (acc : DispatcherState × DispatchEffects) (iw : Nat × Webhook)
    (hq : cfg.queueSize = 0 ∨ acc.1.queue.length < cfg.queueSize) :
    dispatchStep cfg et data ts ca ids acc iw =
      ({ acc.1 with queue := acc.1.queue ++ [dispatchTaskFor et data ts ca ids iw] },
       { acc.2 with queuedTasks := acc.2.queuedTasks ++ [dispatchTaskFor et data ts ca ids iw] }) := by
  simp only [dispatchStep]
  rw [if_pos hq]

lemma dispatchStep_full (cfg : DispatcherConfig) (et : String)
    (data : JsonValue) (ts ca : Nat) (ids : Nat → String)
    (acc : DispatcherState × DispatchEffects) (iw : Nat × Webhook)
    (hq : ¬ (cfg.queueSize = 0 ∨ acc.1.queue.length < cfg.queueSize)) :
    dispatchStep cfg et data ts ca ids acc iw =
      (acc.1, { acc.2 with initialDrops := acc.2.initialDrops ++ [iw.2.id] }) := by
  simp only [dispatchStep]
  rw [if_neg hq]

/-- Invariants of the dispatch loop: the fold never touches failure
counters, never sleeps, never schedules retries, never calls the store,
appends queued tasks to the queue in order, and queues only fresh tasks. -/
lemma dispatchStep_foldl_invariant (cfg : DispatcherConfig)
    (et : String) (data : JsonValue) (ts ca : Nat)
    (ids : Nat → String) (l : List (Nat × Webhook)) :
    ∀ acc : DispatcherState × DispatchEffects,
      (l.foldl (dispatchStep cfg et data ts ca ids) acc).1.failureCounts
          = acc.1.failureCounts
      ∧ (l.foldl (dispatchStep cfg et data ts ca ids) acc).2.sleeps
          = acc.2.sleeps
      ∧ (l.foldl (dispatchStep cfg et data ts ca ids) acc).2.enqueuedRetries
          = acc.2.enqueuedRetries
      ∧ (l.foldl (dispatchStep cfg et data ts ca ids) acc).2.updateWebhookCalls
          = acc.2.updateWebhookCalls
      ∧ (∀ base, acc.1.queue = base ++ acc.2.queuedTasks →
          (l.foldl (dispatchStep cfg et data ts ca ids) acc).1.queue
            = base ++ (l.foldl (dispatchStep cfg et data ts ca ids) acc).2.queuedTasks)
      ∧ ((∀ t ∈ acc.2.queuedTasks, t.retryCount = 0) →
          ∀ t ∈ (l.foldl (dispatchStep cfg et data ts ca ids) acc).2.queuedTasks,
            t.retryCount = 0) := by
  induction l with
  | nil => intro acc; simp
  | cons iw rest ih =>
    intro acc
    simp only [List.foldl_cons]
    obtain ⟨h1, h2, h3, h4, h5, h6⟩ :=
      ih (dispatchStep cfg et data ts ca ids acc iw)
    by_cases hq : cfg.queueSize = 0 ∨ acc.1.queue.length < cfg.queueSize
    · rw [dispatchStep_room cfg et data ts ca ids acc iw hq] at h1 h2 h3 h4 h5 h6 ⊢
      refine ⟨h1, h2, h3, h4, ?_, ?_⟩
      · intro base hb
        refine h5 base ?_
        simp [hb, List.append_assoc]
      · intro h0
        refine h6 ?_
        intro t ht
        rcases List.mem_append.mp ht with h | h
        · exact h0 t h
        · rcases List.mem_singleton.mp h with rfl
          rfl
    · rw [dispatchStep_full cfg et data ts ca ids acc iw hq] at h1 h2 h3 h4 h5 h6 ⊢
      refine ⟨h1, h2, h3, h4, ?_, ?_⟩
      · intro base hb
        exact h5 base hb
      · intro h0
        exact h6 h0

lemma handleDispatchFailure_increment (cfg : DispatcherConfig)
    (st : DispatcherState) (webhookId : String) (upd : Bool)
    (hon : cfg.autoDisableOnFailure = true)
    (hlt : (dictGet st.failureCounts webhookId).getD 0 + 1 < MAX_CONSECUTIVE_FAILURES) :
    (handleDispatchFailure cfg st webhookId upd).1.failureCounts
        = dictSet st.failureCounts webhookId
            ((dictGet st.failureCounts webhookId).getD 0 + 1)
    ∧ (handleDispatchFailure cfg st webhookId upd).2.updateWebhookCalls = [] := by
  have h1 : ¬ (cfg.autoDisableOnFailure = false) := by simp [hon]
  simp only [handleDispatchFailure, if_neg h1,
    if_neg (by omega : ¬ MAX_CONSECUTIVE_FAILURES ≤ (dictGet st.failureCounts webhookId).getD 0 + 1)]
  simp

/-- C7 (amended): `dispatch_webhook` returns normally for every input —
internal exceptions become a logged error with the state unchanged; it
never sleeps, never schedules a retry, never calls the store, and never
touches the failure counters, and each queued task is fresh
(`retry_count = 0`); a task that does not fit in the queue is simply
absent from it. A queue-full during a retry re-enqueue is handed to the
terminal failure handler, which counts it (increments the counter by 1)
when `auto_disable_on_failure` is enabled and is a no-op otherwise. -/
theorem c7_amended_queue_overflow_policy :
    (∀ (cfg : DispatcherConfig) (st : DispatcherState)
        (cacheSnapshot : Except String (List Webhook)) (et : String)
        (data : JsonValue) (ts ca : Nat) (ids : Nat → String),
      (dispatchWebhook cfg st cacheSnapshot et data ts ca ids).1.failureCounts
          = st.failureCounts
      ∧ (dispatchWebhook cfg st cacheSnapshot et data ts ca ids).2.sleeps = []
      ∧ (dispatchWebhook cfg st cacheSnapshot et data ts ca ids).2.enqueuedRetries = []
      ∧ (dispatchWebhook cfg st cacheSnapshot et data ts ca ids).2.updateWebhookCalls = []
      ∧ (dispatchWebhook cfg st cacheSnapshot et data ts ca ids).1.queue
          = st.queue ++ (dispatchWebhook cfg st cacheSnapshot et data ts ca ids).2.queuedTasks
      ∧ (∀ t ∈ (dispatchWebhook cfg st cacheSnapshot et data ts ca ids).2.queuedTasks,
          t.retryCount = 0)
      ∧ (∀ e, cacheSnapshot = Except.error e →
          (dispatchWebhook cfg st cacheSnapshot et data ts ca ids).1 = st))
    ∧ (∀ (cfg : DispatcherConfig) (A : List String) (st : DispatcherState)
        (task : WebhookDispatchTask) (net : HttpOutcome) (upd : Bool),
      (sendWebhookRequest A task.webhook task.payload task.deliveryId net).result.success = false →
      task.retryCount < MAX_RETRY_COUNT →
      cfg.queueSize ≠ 0 →
      cfg.queueSize ≤ st.queue.length →
      processDispatchTask cfg A st task net upd =
        some ((handleDispatchFailure cfg st task.webhook.id upd).1,
          { (handleDispatchFailure cfg st task.webhook.id upd).2 with
            sleeps := [RETRY_DELAYS.getD task.retryCount 0], retryDropped := true },
          (sendWebhookRequest A task.webhook task.payload task.deliveryId net).result)
      ∧ (cfg.autoDisableOnFailure = true →
          (dictGet st.failureCounts task.webhook.id).getD 0 + 1 < MAX_CONSECUTIVE_FAILURES →
          dictGet (handleDispatchFailure cfg st task.webhook.id upd).1.failureCounts
              task.webhook.id
            = some ((dictGet st.failureCounts task.webhook.id).getD 0 + 1))) := by
  constructor
  · intro cfg st cs et data ts ca ids
    cases cs with
    | error e => simp [dispatchWebhook]
    | ok snapshot =>
      simp only [dispatchWebhook]
      by_cases he : (getActiveWebhooksForEvent snapshot et).isEmpty = true
      · rw [if_pos he]
        simp
      · rw [if_neg he]
        obtain ⟨h1, h2, h3, h4, h5, h6⟩ :=
          dispatchStep_foldl_invariant cfg et data ts ca ids
            (getActiveWebhooksForEvent snapshot et).enum (st, {})
        exact ⟨h1, h2, h3, h4, h5 st.queue (by simp), h6 (by simp),
          fun e h => by cases h⟩
  · intro cfg A st task net upd hfail hrc hz hfull
    have hlt : task.retryCount < RETRY_DELAYS.length := hrc
    constructor
    · simp only [processDispatchTask, if_pos (And.intro hfail hrc),
        List.get?_eq_get hlt]
      rw [if_neg (by omega :
        ¬ (cfg.queueSize = 0 ∨ st.queue.length < cfg.queueSize))]
      simp [List.getD_eq_getElem?_getD, List.getElem?_eq_getElem hlt]
    · intro hon hbelow
      rw [(handleDispatchFailure_increment cfg st task.webhook.id upd hon hbelow).1]
      exact dictGet_dictSet_self _ _ _

/-- C7 counterexample: with `auto_disable_on_failure = False` and a
size-1 queue already holding one task, the retry re-enqueue hits
`queue.Full`: the retry is dropped (retryDropped) after sleeping, but no
failure is counted — the counters stay empty, refuting the unconditional
"is counted". -/
theorem c7_counterexample :
    (processDispatchTask { queueSize := 1, autoDisableOnFailure := false }
        ["https"] { queue := [schemeTask] } schemeTask (.response 200 "") true).map
        (fun r => (r.1.failureCounts, r.2.1.retryDropped, r.2.1.sleeps))
      = some ([], true, [1]) := by
  decide

/-- A dispatcher state whose size-1 queue is already at capacity. -/
def stFullQueue : DispatcherState := { queue := [schemeTask] }

/-- C7 witness: with the default (enabled) policy and a full size-1 queue,
a retry-path queue-full is counted: the counter for the webhook rises
to 1. -/
theorem c7_amended_witness :
    ((sendWebhookRequest ["https"] schemeTask.webhook schemeTask.payload
        schemeTask.deliveryId (.response 200 "")).result.success = false
      ∧ schemeTask.retryCount < MAX_RETRY_COUNT
      ∧ ({ queueSize := 1 } : DispatcherConfig).queueSize ≠ 0
      ∧ ({ queueSize := 1 } : DispatcherConfig).queueSize ≤ stFullQueue.queue.length
      ∧ ({ queueSize := 1 } : DispatcherConfig).autoDisableOnFailure = true
      ∧ (dictGet stFullQueue.failureCounts schemeTask.webhook.id).getD 0 + 1
          < MAX_CONSECUTIVE_FAILURES)
    ∧ dictGet (handleDispatchFailure { queueSize := 1 } stFullQueue schemeTask.webhook.id
          true).1.failureCounts schemeTask.webhook.id
        = some ((dictGet stFullQueue.failureCounts schemeTask.webhook.id).getD 0 + 1) :=
  ⟨⟨by decide, by decide, by decide, by decide, by decide, by decide⟩,
    (c7_amended_queue_overflow_policy.2 { queueSize := 1 } ["https"] stFullQueue
      schemeTask (.response 200 "") true (by decide) (by decide) (by decide)
      (by decide)).2 (by decide) (by decide)⟩

lemma not_not_contains (A : List String) (x : String)
    (h : A.contains x = true) : ¬ ¬ A.contains x = true :=
  fun hn => hn h

/-- When all three preflight checks pass, the sender hands
`sendRequestOf` to `requests.post`, whatever the network then does. -/
lemma send_preflight_ok (A : List String) (w : Webhook)
    (payload : JsonValue) (did et : String) (net : HttpOutcome)
    (hs : A.contains (urlScheme w.url) = true)
    (he : jsonLookup payload "event_type" = some (JsonValue.str et))
    (hsize : ¬ MAX_PAYLOAD_SIZE < (utf8Bytes (jsonDumps payload).data).length) :
    (sendWebhookRequest A w payload did net).request
        = some (sendRequestOf w payload did et)
    ∧ (sendWebhookRequest A w payload did net).kind ≠ SendKind.payloadTooLarge
    ∧ (sendWebhookRequest A w payload did net).kind ≠ SendKind.disallowedScheme := by
  simp only [sendWebhookRequest]
  rw [if_neg (not_not_contains A (urlScheme w.url) hs), he]
  simp only []
  rw [if_neg hsize]
  cases net with
  | timeout => exact ⟨rfl, by simp, by simp⟩
  | requestError m => exact ⟨rfl, by simp, by simp⟩
  | otherError m => exact ⟨rfl, by simp, by simp⟩
  | response status body =>
    simp only []
    by_cases hst : 400 ≤ status ∧ status < 600
    · rw [if_pos hst]; exact ⟨rfl, by simp, by simp⟩
    · rw [if_neg hst]; exact ⟨rfl, by simp, by simp⟩

/-- When the scheme passes and the serialized payload is over the limit,
the sender fails with `PAYLOAD_TOO_LARGE` before any network I/O. -/
lemma send_too_large_eq (A : List String) (w : Webhook)
    (payload : JsonValue) (did et : String) (net : HttpOutcome)
    (hs : A.contains (urlScheme w.url) = true)
    (he : jsonLookup payload "event_type" = some (JsonValue.str et))
    (hbig : MAX_PAYLOAD_SIZE < (utf8Bytes (jsonDumps payload).data).length) :
    sendWebhookRequest A w payload did net =
      { result :=
          { webhookId := w.id, success := false, deliveryId := did,
            errorMessage := some ("Payload size (" ++
              toString (utf8Bytes (jsonDumps payload).data).length ++
              " bytes) exceeds maximum allowed size (" ++
              toString MAX_PAYLOAD_SIZE ++ " bytes)") },
        request := none, kind := SendKind.payloadTooLarge } := by
  simp only [sendWebhookRequest]
  rw [if_neg (not_not_contains A (urlScheme w.url) hs), he]
  simp only []
  rw [if_pos hbig]

lemma hexDigit_mem_lower : ∀ m, m < 16 → hexDigit m ∈ "0123456789abcdef".data := by
  decide

/-- `hexdigest` output is lower-case hexadecimal. -/
lemma hexOfBytes_lower (bs : List Nat) :
    ∀ c ∈ (hexOfBytes bs).data, c ∈ "0123456789abcdef".data := by
  induction bs with
  | nil => intro c hc; cases hc
  | cons b rest ih =>
    intro c hc
    have hd : (hexOfBytes (b :: rest)).data
        = byteToHex b ++ (hexOfBytes rest).data := rfl
    rw [hd] at hc
    rcases List.mem_append.mp hc with h | h
    · rcases List.mem_cons.mp h with rfl | h
      · exact hexDigit_mem_lower _ (Nat.mod_lt _ (by norm_num))
      · rcases List.mem_singleton.mp h with rfl
        exact hexDigit_mem_lower _ (Nat.mod_lt _ (by norm_num))
    · exact ih c h

/-- C6: on any attempt that passes the preflight checks, the request
carries an `X-MLflow-Signature` header iff the webhook has a (non-empty)
secret configured; when present its value is `"sha256="` followed by the
lower-case hexadecimal HMAC-SHA256 of the secret over exactly the body
bytes of the request handed to `requests.post`. -/
theorem c6_signature_header_iff_secret (A : List String) (w : Webhook)
    (payload : JsonValue) (did et : String) (net : HttpOutcome)
    (hs : A.contains (urlScheme w.url) = true)
    (he : jsonLookup payload "event_type" = some (JsonValue.str et))
    (hsize : ¬ MAX_PAYLOAD_SIZE < (utf8Bytes (jsonDumps payload).data).length) :
    ∃ req, (sendWebhookRequest A w payload did net).request = some req
      ∧ req.body = jsonDumps payload
      ∧ ((w.secret = none ∨ w.secret = some "") →
          headersGet req.headers "X-MLflow-Signature" = none)
      ∧ (∀ s, w.secret = some s → s ≠ "" →
          headersGet req.headers "X-MLflow-Signature"
            = some ("sha256=" ++
                hexOfBytes (hmacSha256 (utf8Bytes s.data) (utf8Bytes req.body.data))))
      ∧ (∀ s, w.secret = some s → s ≠ "" →
          ∀ c ∈ (hexOfBytes (hmacSha256 (utf8Bytes s.data) (utf8Bytes req.body.data))).data,
            c ∈ "0123456789abcdef".data) := by
  refine ⟨sendRequestOf w payload did et,
    (send_preflight_ok A w payload did et net hs he hsize).1, rfl, ?_, ?_, ?_⟩
  · rintro (hn | hn) <;>
      simp [sendRequestOf, sendHeaders, headersGet, hn]
  · intro s hsec hne
    simp [sendRequestOf, sendHeaders, headersGet, hsec, hne, signPayload,
      jsonDumps]
  · intro s hsec hne
    exact hexOfBytes_lower _

/-- A webhook with a configured secret and an envelope payload for it. -/
def secretWebhook : Webhook :=
  { id := "wh-2", name := "w2", url := "https://example.com/hook",
    events := ["E"], secret := some "s" }

def signedPayload : JsonValue := buildWebhookPayload "E" JsonValue.null 0 "d-2"

/-- C6 witness: the signature contract at a concrete secured webhook. -/
theorem c6_signature_header_iff_secret_witness :
    (["https"].contains (urlScheme secretWebhook.url) = true
      ∧ jsonLookup signedPayload "event_type" = some (JsonValue.str "E")
      ∧ ¬ MAX_PAYLOAD_SIZE < (utf8Bytes (jsonDumps signedPayload).data).length)
    ∧ ∃ req, (sendWebhookRequest ["https"] secretWebhook signedPayload "d-2"
          (.response 200 "ok")).request = some req
      ∧ req.body = jsonDumps signedPayload
      ∧ ((secretWebhook.secret = none ∨ secretWebhook.secret = some "") →
          headersGet req.headers "X-MLflow-Signature" = none)
      ∧ (∀ s, secretWebhook.secret = some s → s ≠ "" →
          headersGet req.headers "X-MLflow-Signature"
            = some ("sha256=" ++
                hexOfBytes (hmacSha256 (utf8Bytes s.data) (utf8Bytes req.body.data))))
      ∧ (∀ s, secretWebhook.secret = some s → s ≠ "" →
          ∀ c ∈ (hexOfBytes (hmacSha256 (utf8Bytes s.data) (utf8Bytes req.body.data))).data,
            c ∈ "0123456789abcdef".data) :=
  ⟨⟨by decide, rfl, by decide⟩,
    c6_signature_header_iff_secret ["https"] secretWebhook signedPayload "d-2"
      "E" (.response 200 "ok") (by decide) rfl (by decide)⟩

/-- C8: with the other preflight checks passing, a payload whose
serialized UTF-8 length is exactly `MAX_PAYLOAD_SIZE` passes the size
preflight and the request is handed to the network, while a payload one
byte larger is rejected with `PAYLOAD_TOO_LARGE` before any network I/O
(`request = none`), with a failed result and the exact size message. -/
theorem c8_payload_size_boundary (A : List String) (w : Webhook)
    (payload : JsonValue) (did et : String) (net : HttpOutcome)
    (hs : A.contains (urlScheme w.url) = true)
    (he : jsonLookup payload "event_type" = some (JsonValue.str et)) :
    ((utf8Bytes (jsonDumps payload).data).length = MAX_PAYLOAD_SIZE →
      (sendWebhookRequest A w payload did net).kind ≠ SendKind.payloadTooLarge
      ∧ (sendWebhookRequest A w payload did net).request
          = some (sendRequestOf w payload did et))
    ∧ ((utf8Bytes (jsonDumps payload).data).length = MAX_PAYLOAD_SIZE + 1 →
      (sendWebhookRequest A w payload did net).request = none
      ∧ (sendWebhookRequest A w payload did net).result.success = false
      ∧ (sendWebhookRequest A w payload did net).kind = SendKind.payloadTooLarge
      ∧ (sendWebhookRequest A w payload did net).result.errorMessage
          = some ("Payload size (" ++ toString (MAX_PAYLOAD_SIZE + 1) ++
              " bytes) exceeds maximum allowed size (" ++
              toString MAX_PAYLOAD_SIZE ++ " bytes)")) := by
  constructor
  · intro hlen
    have hsize : ¬ MAX_PAYLOAD_SIZE < (utf8Bytes (jsonDumps payload).data).length := by
      omega
    obtain ⟨h1, h2, h3⟩ := send_preflight_ok A w payload did et net hs he hsize
    exact ⟨h2, h1⟩
  · intro hlen
    have hbig : MAX_PAYLOAD_SIZE < (utf8Bytes (jsonDumps payload).data).length := by
      omega
    rw [send_too_large_eq A w payload did et net hs he hbig]
    refine ⟨rfl, rfl, rfl, ?_⟩
    rw [hlen]

lemma escapeChars_cons (c : Char) (l : List Char) :
    escapeChars (c :: l) = escapeJsonChar c ++ escapeChars l := rfl

lemma escapeChars_replicate_a (n : Nat) :
    escapeChars (List.replicate n 'a') = List.replicate n 'a' := by
  induction n with
  | zero => rfl
  | succ n ih =>
    rw [List.replicate_succ, escapeChars_cons, ih,
      (by decide : escapeJsonChar 'a' = ['a'])]
    rfl

lemma utf8Bytes_cons (c : Char) (l : List Char) :
    utf8Bytes (c :: l) = utf8EncodeChar c ++ utf8Bytes l := rfl

lemma utf8Bytes_append (l1 l2 : List Char) :
    utf8Bytes (l1 ++ l2) = utf8Bytes l1 ++ utf8Bytes l2 := by
  induction l1 with
  | nil => rfl
  | cons c l ih =>
    rw [List.cons_append, utf8Bytes_cons, utf8Bytes_cons, ih, List.append_assoc]

lemma utf8Bytes_replicate_a (n : Nat) :
    utf8Bytes (List.replicate n 'a') = List.replicate n 97 := by
  induction n with
  | zero => rfl
  | succ n ih =>
    rw [List.replicate_succ, utf8Bytes_cons, ih,
      (by decide : utf8EncodeChar 'a' = [97])]
    rfl

/-- A payload whose serialization is `n + 31` bytes: the envelope keys are
fixed and `data` is a string of `n` unescaped ASCII characters. -/
def bigPayload (n : Nat) : JsonValue :=
  JsonValue.obj [("event_type", JsonValue.str "E"),
                 ("data", JsonValue.str (String.mk (List.replicate n 'a')))]

lemma jsonDumpsChars_bigPayload (n : Nat) :
    jsonDumpsChars (bigPayload n)
      = "\x7b\"event_type\": \"E\", \"data\": \"".data
        ++ (List.replicate n 'a' ++ "\"\x7d".data) := by
  simp only [bigPayload, jsonDumpsChars, jsonObjChars, escapeChars_replicate_a,
    List.append_assoc, List.cons_append]
  rfl

lemma bigPayload_length (n : Nat) :
    (utf8Bytes (jsonDumps (bigPayload n)).data).length = n + 31 := by
  show (utf8Bytes (jsonDumpsChars (bigPayload n))).length = n + 31
  rw [jsonDumpsChars_bigPayload, utf8Bytes_append, utf8Bytes_append,
    utf8Bytes_replicate_a]
  rw [List.length_append, List.length_append, List.length_replicate,
    (by decide : (utf8Bytes "\x7b\"event_type\": \"E\", \"data\": \"".data).length = 29),
    (by decide : (utf8Bytes "\"\x7d".data).length = 2)]
  omega

def c8Webhook : Webhook :=
  { id := "wh-8", name := "w8", url := "https://example.com/h", events := ["E"] }

/-- C8 witness: payloads of exactly 1048576 and 1048577 serialized bytes. -/
theorem c8_payload_size_boundary_witness :
    (["https"].contains (urlScheme c8Webhook.url) = true
      ∧ jsonLookup (bigPayload 1048545) "event_type" = some (JsonValue.str "E")
      ∧ (utf8Bytes (jsonDumps (bigPayload 1048545)).data).length = MAX_PAYLOAD_SIZE
      ∧ jsonLookup (bigPayload 1048546) "event_type" = some (JsonValue.str "E")
      ∧ (utf8Bytes (jsonDumps (bigPayload 1048546)).data).length = MAX_PAYLOAD_SIZE + 1)
    ∧ ((sendWebhookRequest ["https"] c8Webhook (bigPayload 1048545) "d-8"
          (.response 200 "")).kind ≠ SendKind.payloadTooLarge
      ∧ (sendWebhookRequest ["https"] c8Webhook (bigPayload 1048545) "d-8"
          (.response 200 "")).request
          = some (sendRequestOf c8Webhook (bigPayload 1048545) "d-8" "E"))
    ∧ ((sendWebhookRequest ["https"] c8Webhook (bigPayload 1048546) "d-8"
          (.response 200 "")).request = none
      ∧ (sendWebhookRequest ["https"] c8Webhook (bigPayload 1048546) "d-8"
          (.response 200 "")).result.success = false
      ∧ (sendWebhookRequest ["https"] c8Webhook (bigPayload 1048546) "d-8"
          (.response 200 "")).kind = SendKind.payloadTooLarge
      ∧ (sendWebhookRequest ["https"] c8Webhook (bigPayload 1048546) "d-8"
          (.response 200 "")).result.errorMessage
          = some ("Payload size (" ++ toString (MAX_PAYLOAD_SIZE + 1) ++
              " bytes) exceeds maximum allowed size (" ++
              toString MAX_PAYLOAD_SIZE ++ " bytes)")) :=
  ⟨⟨by decide, rfl, by rw [bigPayload_length]; decide, rfl,
      by rw [bigPayload_length]; decide⟩,
    (c8_payload_size_boundary ["https"] c8Webhook (bigPayload 1048545) "d-8" "E"
      (.response 200 "") (by decide) rfl).1 (by rw [bigPayload_length]; decide),
    (c8_payload_size_boundary ["https"] c8Webhook (bigPayload 1048546) "d-8" "E"
      (.response 200 "") (by decide) rfl).2 (by rw [bigPayload_length]; decide)⟩
